import Mathlib

/-!
Shallow embedding of the WClaw signal-generation pipeline
(`src/weather/probability.ts`, `src/market/parser.ts`, `src/engine/consensus.ts`,
`src/engine/edge.ts`, `src/engine/sizing.ts`, `src/engine/signals.ts`)
together with proofs of the specification claims about it.

Modelling conventions:
* JavaScript `number` values carrying temperatures, prices, probabilities and
  dollar amounts are embedded as exact rationals (`ℚ`); decimal literals of the
  source (`1.2`, `0.66`, …) become the corresponding decimal rationals.
* Bracket bounds may be `±Infinity` in the source, so they are embedded as
  `XNum` (a rational extended with the two infinities) with the JS comparison
  operators.
* Fallible TypeScript functions returning `null` become `Option`-valued
  functions; logging calls are dropped (they do not affect results).
* Ambient effects read by the code (`Date.now()`, `new Date(s).getTime()`,
  `new Date().getFullYear()`, `crypto.randomUUID()`) are passed as explicit
  arguments (`now`, `parseTime`, `year`, `uuid`).
-/

namespace WClaw

/-- The `"high" | "low"` metric selector. -/
inductive Metric where
  | high
  | low
deriving DecidableEq

/-- The `"above" | "below" | "between"` bracket type. -/
inductive BracketType where
  | above
  | below
  | between
deriving DecidableEq

/-- A JavaScript `number` as used for bracket bounds: a finite value
(modelled exactly as a rational) or `±Infinity`.  `NaN` does not arise in the
modelled code paths. -/
inductive XNum where
  | negInf
  | fin (q : ℚ)
  | posInf
deriving DecidableEq

/-- JS `<=` on the embedded numbers. -/
def XNum.le : XNum → XNum → Bool
  | .negInf, _ => true
  | .fin a, .fin b => a ≤ b
  | .fin _, .posInf => true
  | .fin _, .negInf => false
  | .posInf, .posInf => true
  | .posInf, _ => false

/-- JS `<` on the embedded numbers. -/
def XNum.lt : XNum → XNum → Bool
  | .negInf, .negInf => false
  | .negInf, _ => true
  | .fin a, .fin b => a < b
  | .fin _, .posInf => true
  | .fin _, .negInf => false
  | .posInf, _ => false

/-- `interface DailyForecast` from `src/types.ts`. -/
structure DailyForecast where
  date : String
  highs : List ℚ
  lows : List ℚ
deriving DecidableEq

/-- `interface EnsembleForecast` from `src/types.ts`. -/
structure EnsembleForecast where
  city : String
  fetchedAt : ℤ
  daily : List DailyForecast
deriving DecidableEq

/-- `interface BucketProbability` from `src/types.ts`. -/
structure BucketProbability where
  city : String
  date : String
  metric : Metric
  bracketMin : XNum
  bracketMax : XNum
  probability : ℚ
  memberCount : ℕ
deriving DecidableEq

/-- `metric === "high" ? forecast.highs : forecast.lows` — the member array the
probability functions work on. -/
def DailyForecast.temps (forecast : DailyForecast) : Metric → List ℚ
  | .high => forecast.highs
  | .low => forecast.lows

/-- `calcBucketProbability` from `src/weather/probability.ts`. -/
def calcBucketProbability (forecast : DailyForecast) (metric : Metric)
    (bracketMin bracketMax : XNum) : BucketProbability :=
  let temps := forecast.temps metric
  let total := temps.length
  if total = 0 then
    { city := "", date := forecast.date, metric := metric,
      bracketMin := bracketMin, bracketMax := bracketMax,
      probability := 0, memberCount := 0 }
  else
    let inBucket :=
      (temps.filter (fun t => XNum.le bracketMin (.fin t) && XNum.lt (.fin t) bracketMax)).length
    { city := "", date := forecast.date, metric := metric,
      bracketMin := bracketMin, bracketMax := bracketMax,
      probability := (inBucket : ℚ) / (total : ℚ), memberCount := inBucket }

/-- `calcAboveProbability` from `src/weather/probability.ts`. -/
def calcAboveProbability (forecast : DailyForecast) (metric : Metric)
    (threshold : XNum) : ℚ :=
  let temps := forecast.temps metric
  if temps.length = 0 then 0
  else ((temps.filter (fun t => XNum.le threshold (.fin t))).length : ℚ) / (temps.length : ℚ)

/-- `calcBelowProbability` from `src/weather/probability.ts`. -/
def calcBelowProbability (forecast : DailyForecast) (metric : Metric)
    (threshold : XNum) : ℚ :=
  let temps := forecast.temps metric
  if temps.length = 0 then 0
  else ((temps.filter (fun t => XNum.lt (.fin t) threshold)).length : ℚ) / (temps.length : ℚ)

/-- `getModelProbability` from `src/weather/probability.ts`. -/
def getModelProbability (ensemble : EnsembleForecast) (date : String) (metric : Metric)
    (bracketType : BracketType) (bracketMin bracketMax : XNum) : Option ℚ :=
  match ensemble.daily.find? (fun d => d.date = date) with
  | none => none
  | some day =>
    match bracketType with
    | .above => some (calcAboveProbability day metric bracketMin)
    | .below => some (calcBelowProbability day metric bracketMax)
    | .between => some (calcBucketProbability day metric bracketMin bracketMax).probability

/-- The JS comparisons `t >= thr` and `t < thr` on a finite `t` are exhaustive
and mutually exclusive, whatever the (possibly infinite) threshold. -/
theorem XNum.lt_fin_eq_not_le (thr : XNum) (t : ℚ) :
    XNum.lt (.fin t) thr = !XNum.le thr (.fin t) := by
  cases thr with
  | negInf => simp [XNum.lt, XNum.le]
  | posInf => simp [XNum.lt, XNum.le]
  | fin q => simp only [XNum.lt, XNum.le, ← decide_not, not_le]

theorem List.countP_add_countP_not (l : List ℚ) (p : ℚ → Bool) :
    l.countP p + l.countP (fun a => !p a) = l.length := by
  induction l with
  | nil => simp
  | cons x xs ih =>
    by_cases hx : p x = true <;>
      simp [List.countP_cons, hx, ← ih] <;> omega

/-- C1: for every daily forecast entry, metric and bounds `min < max`,
`calcBucketProbability` counts exactly the members with `min <= value < max`
(a member exactly at `bracketMin` satisfies the membership test, a member
exactly at `bracketMax` fails it) and returns
`probability = inBucketCount / totalMembers`; when the member array is empty
it returns probability 0 and memberCount 0 instead of dividing by zero. -/
theorem calcBucketProbability_spec (f : DailyForecast) (metric : Metric) (lo hi : XNum)
    (hlt : XNum.lt lo hi = true) :
    (calcBucketProbability f metric lo hi).memberCount
        = (f.temps metric).countP (fun t => XNum.le lo (.fin t) && XNum.lt (.fin t) hi)
    ∧ (calcBucketProbability f metric lo hi).probability
        = (if (f.temps metric).length = 0 then 0
           else ((f.temps metric).countP
                  (fun t => XNum.le lo (.fin t) && XNum.lt (.fin t) hi) : ℚ)
                / ((f.temps metric).length : ℚ))
    ∧ (∀ q : ℚ, lo = .fin q → (XNum.le lo (.fin q) && XNum.lt (.fin q) hi) = true)
    ∧ (∀ q : ℚ, hi = .fin q → (XNum.le lo (.fin q) && XNum.lt (.fin q) hi) = false) := by
  refine ⟨?_, ?_, ?_, ?_⟩
  · by_cases h : (f.temps metric).length = 0
    · rw [List.length_eq_zero] at h
      simp [calcBucketProbability, h]
    · simp [calcBucketProbability, h, List.countP_eq_length_filter]
  · by_cases h : (f.temps metric).length = 0
    · rw [List.length_eq_zero] at h
      simp [calcBucketProbability, h]
    · simp [calcBucketProbability, h, List.countP_eq_length_filter]
  · intro q hq
    subst hq
    simp only [XNum.le, le_refl, decide_True, Bool.true_and]
    exact hlt
  · intro q hq
    subst hq
    simp [XNum.lt]

/-- Witness for C1 at a concrete forecast and bracket: the 31-member ensemble
of the spec (10@41, 10@42, 10@43, 1@44) on the bracket `[42, 44)` yields
memberCount 20 and probability 20/31; a member at 42 is counted, a member at
44 is not. -/
def specEnsembleHighs : List ℚ :=
  List.replicate 10 41 ++ List.replicate 10 42 ++ List.replicate 10 43 ++ [44]

def specDaily : DailyForecast :=
  { date := "2026-02-16", highs := specEnsembleHighs, lows := [] }

theorem calcBucketProbability_spec_witness :
    XNum.lt (.fin 42) (.fin 44) = true
    ∧ (calcBucketProbability specDaily .high (.fin 42) (.fin 44)).memberCount
        = (specDaily.temps .high).countP
            (fun t => XNum.le (.fin 42) (.fin t) && XNum.lt (.fin t) (.fin 44))
    ∧ (calcBucketProbability specDaily .high (.fin 42) (.fin 44)).probability = 20 / 31 := by
  refine ⟨by decide, (calcBucketProbability_spec specDaily .high (.fin 42) (.fin 44)
    (by decide)).1, ?_⟩
  have h := (calcBucketProbability_spec specDaily .high (.fin 42) (.fin 44) (by decide)).2.1
  have h2 : (specDaily.temps .high).countP
      (fun t => XNum.le (.fin 42) (.fin t) && XNum.lt (.fin t) (.fin 44)) = 20 := by decide
  have h3 : (specDaily.temps .high).length = 31 := by decide
  rw [h, h2, h3]
  norm_num

/-- C2: for every daily forecast entry with a non-empty member array for the
chosen metric and every threshold, `calcAboveProbability` and
`calcBelowProbability` sum to exactly 1, since each member value satisfies
exactly one of `value >= threshold` and `value < threshold`. -/
theorem calcAbove_add_calcBelow_eq_one (f : DailyForecast) (metric : Metric) (t : XNum)
    (h : f.temps metric ≠ []) :
    calcAboveProbability f metric t + calcBelowProbability f metric t = 1 := by
  have hlen : (f.temps metric).length ≠ 0 := by
    simpa [List.length_eq_zero] using h
  unfold calcAboveProbability calcBelowProbability
  simp only [hlen, if_neg, ite_false]
  rw [← List.countP_eq_length_filter, ← List.countP_eq_length_filter, div_add_div_same]
  have hsplit : (f.temps metric).countP (fun q => XNum.le t (.fin q))
      + (f.temps metric).countP (fun q => XNum.lt (.fin q) t)
      = (f.temps metric).length := by
    have hfun : (fun q : ℚ => XNum.lt (.fin q) t)
        = (fun q : ℚ => !XNum.le t (.fin q)) := by
      funext q
      exact XNum.lt_fin_eq_not_le t q
    rw [hfun]
    exact List.countP_add_countP_not (f.temps metric) (fun q => XNum.le t (.fin q))
  rw [← Nat.cast_add, hsplit, div_self]
  exact_mod_cast hlen

/-- Witness for C2: on the 31-member spec ensemble with threshold 42,
above = 21/31 and below = 10/31, summing to 1. -/
theorem calcAbove_add_calcBelow_eq_one_witness :
    specDaily.temps .high ≠ []
    ∧ calcAboveProbability specDaily .high (.fin 42)
        + calcBelowProbability specDaily .high (.fin 42) = 1 :=
  ⟨by decide, calcAbove_add_calcBelow_eq_one specDaily .high (.fin 42) (by decide)⟩

/-!
### BracketParser (`src/market/parser.ts`)

The three title regexes are embedded as values of a small regex AST together
with a backtracking matcher that follows JavaScript semantics: prioritized
alternation (first alternative preferred), greedy `+`/`*`/`?`, lazy `+?`,
numbered capture groups, scan for the leftmost match position.
-/

/-- Regex AST covering exactly the constructs the three title patterns use. -/
inductive RE where
  | eps
  | cls (p : Char → Bool)
  | seq (a b : RE)
  | alt (a b : RE)
  | starG (r : RE)
  | starL (r : RE)
  | grp (n : Nat) (r : RE)

/-- Capture environment: group number paired with the matched characters. -/
def Caps := List (Nat × List Char)

instance : DecidableEq Caps := by
  unfold Caps
  infer_instance

/-- Backtracking matcher in continuation-passing style.  `alt a b` tries `a`
first and falls back to `b` only if the whole rest of the match fails, which
yields the JS preference order; `starG` prefers one more iteration, `starL`
prefers none.  Star iterations that consume no input are cut off, as in JS.
`fuel` bounds the recursion depth and is chosen large enough at every use
site; the claims' theorems are stated relative to the match results, so no
fuel-adequacy argument is needed. -/
def RE.run (fuel : Nat) (r : RE) (s : List Char) (caps : List (Nat × List Char))
    (k : List Char → List (Nat × List Char) → Option (List (Nat × List Char))) :
    Option (List (Nat × List Char)) :=
  match fuel with
  | 0 => none
  | fuel + 1 =>
    match r with
    | .eps => k s caps
    | .cls p =>
      match s with
      | [] => none
      | c :: rest => if p c then k rest caps else none
    | .seq a b => RE.run fuel a s caps (fun s2 c2 => RE.run fuel b s2 c2 k)
    | .alt a b =>
      match RE.run fuel a s caps k with
      | some res => some res
      | none => RE.run fuel b s caps k
    | .starG r1 =>
      match RE.run fuel r1 s caps (fun s2 c2 =>
          if s2.length < s.length then RE.run fuel (.starG r1) s2 c2 k else none) with
      | some res => some res
      | none => k s caps
    | .starL r1 =>
      match k s caps with
      | some res => some res
      | none =>
        RE.run fuel r1 s caps (fun s2 c2 =>
          if s2.length < s.length then RE.run fuel (.starL r1) s2 c2 k else none)
    | .grp n r1 =>
      RE.run fuel r1 s caps (fun s2 c2 =>
        k s2 ((n, s.take (s.length - s2.length)) :: c2))

/-- `title.match(re)`: try the pattern at each position from the left and
return the captures of the first (leftmost) match, or `none`. -/
def reFind (fuel : Nat) (r : RE) (s : List Char) : Option Caps :=
  match RE.run fuel r s [] (fun _ caps => some caps) with
  | some caps => some caps
  | none =>
    match s with
    | [] => none
    | _ :: rest => reFind fuel r rest

/-- `m[n]`: the text of capture group `n` (empty if absent, which cannot
happen on the successful matches the parser inspects). -/
def capture (m : Caps) (n : Nat) : List Char :=
  match List.find? (fun e => e.1 = n) m with
  | some e => e.2
  | none => []

/-- JS `\s` (ASCII fragment). -/
def jsWs (c : Char) : Bool := c.isWhitespace

/-- JS `\d`. -/
def jsDigit (c : Char) : Bool := c.isDigit

/-- JS `\w`. -/
def jsWord (c : Char) : Bool := c.isAlphanum || c = '_'

/-- JS `.` (anything but a line terminator). -/
def jsDot (c : Char) : Bool := !(c = '\n' || c = '\r')

/-- A single character matched case-insensitively (the `/i` flag). -/
def ci (c : Char) : RE := .cls (fun d => d.toLower = c.toLower)

def RE.seqList : List RE → RE
  | [] => .eps
  | r :: rs => .seq r (RE.seqList rs)

/-- A case-insensitive literal string. -/
def lit (s : String) : RE := RE.seqList (s.toList.map ci)

/-- Greedy `+`. -/
def plusG (r : RE) : RE := .seq r (.starG r)

/-- Lazy `+?`. -/
def plusL (r : RE) : RE := .seq r (.starL r)

/-- Greedy `?`. -/
def optG (r : RE) : RE := .alt r .eps

/-- `\s+`. -/
def wsPlus : RE := plusG (.cls jsWs)

/-- `\s*`. -/
def wsStar : RE := .starG (.cls jsWs)

/-- `RE_BETWEEN` from `src/market/parser.ts`:
`/highest\s+temperature\s+in\s+(.+?)\s+be\s+between\s+(\d+)\s*-\s*(\d+)\s*°?\s*F?\s+on\s+(\w+\s+\d+)/i`. -/
def RE_BETWEEN : RE := RE.seqList [
  lit "highest", wsPlus, lit "temperature", wsPlus, lit "in", wsPlus,
  .grp 1 (plusL (.cls jsDot)), wsPlus, lit "be", wsPlus, lit "between", wsPlus,
  .grp 2 (plusG (.cls jsDigit)), wsStar, lit "-", wsStar, .grp 3 (plusG (.cls jsDigit)),
  wsStar, optG (lit "°"), wsStar, optG (lit "F"), wsPlus, lit "on", wsPlus,
  .grp 4 (RE.seqList [plusG (.cls jsWord), wsPlus, plusG (.cls jsDigit)])]

/-- `RE_OR_BELOW` from `src/market/parser.ts`:
`/highest\s+temperature\s+in\s+(.+?)\s+be\s+(\d+)\s*°?\s*F?\s+or\s+below\s+on\s+(\w+\s+\d+)/i`. -/
def RE_OR_BELOW : RE := RE.seqList [
  lit "highest", wsPlus, lit "temperature", wsPlus, lit "in", wsPlus,
  .grp 1 (plusL (.cls jsDot)), wsPlus, lit "be", wsPlus,
  .grp 2 (plusG (.cls jsDigit)), wsStar, optG (lit "°"), wsStar, optG (lit "F"),
  wsPlus, lit "or", wsPlus, lit "below", wsPlus, lit "on", wsPlus,
  .grp 3 (RE.seqList [plusG (.cls jsWord), wsPlus, plusG (.cls jsDigit)])]

/-- `RE_OR_HIGHER` from `src/market/parser.ts`:
`/highest\s+temperature\s+in\s+(.+?)\s+be\s+(\d+)\s*°?\s*F?\s+or\s+higher\s+on\s+(\w+\s+\d+)/i`. -/
def RE_OR_HIGHER : RE := RE.seqList [
  lit "highest", wsPlus, lit "temperature", wsPlus, lit "in", wsPlus,
  .grp 1 (plusL (.cls jsDot)), wsPlus, lit "be", wsPlus,
  .grp 2 (plusG (.cls jsDigit)), wsStar, optG (lit "°"), wsStar, optG (lit "F"),
  wsPlus, lit "or", wsPlus, lit "higher", wsPlus, lit "on", wsPlus,
  .grp 3 (RE.seqList [plusG (.cls jsWord), wsPlus, plusG (.cls jsDigit)])]

/-- Recursion-depth budget for the matcher, ample for any realistic title. -/
def parseFuel : Nat := 2000

/-- The `MONTHS` table from `src/market/parser.ts`. -/
def MONTHS : List (String × String) := [
  ("january", "01"), ("february", "02"), ("march", "03"), ("april", "04"),
  ("may", "05"), ("june", "06"), ("july", "07"), ("august", "08"),
  ("september", "09"), ("october", "10"), ("november", "11"), ("december", "12"),
  ("jan", "01"), ("feb", "02"), ("mar", "03"), ("apr", "04"),
  ("jun", "06"), ("jul", "07"), ("aug", "08"), ("sep", "09"), ("oct", "10"),
  ("nov", "11"), ("dec", "12")]

def toLowerStr (s : List Char) : List Char := s.map Char.toLower

/-- JS `String.prototype.trim`. -/
def trimCh (s : List Char) : List Char :=
  (((s.dropWhile jsWs).reverse).dropWhile jsWs).reverse

/-- JS `hay.includes(needle)`: contiguous-substring test. -/
def includesCh (needle : List Char) : List Char → Bool
  | [] => needle.isEmpty
  | c :: rest => needle.isPrefixOf (c :: rest) || includesCh needle rest

/-- The partial-match loop of `matchCity`:
`for (const [alias, slug] of Object.entries(CITY_ALIASES)) if (normalized.includes(alias) || alias.includes(normalized)) return slug`. -/
def matchCityPartial (aliases : List (String × String)) (normalized : List Char) :
    Option String :=
  match List.find? (fun e =>
      includesCh e.1.toList normalized || includesCh normalized e.1.toList) aliases with
  | some e => some e.2
  | none => none

/-- `matchCity` from `src/market/parser.ts`.  The alias table `CITY_ALIASES`
lives in `src/config.ts`, which is not part of the sources at hand, so the
table is passed as an explicit insertion-ordered association list; the JS
truthiness test `if (CITY_ALIASES[normalized])` falls through to the partial
loop on an empty slug. -/
def matchCity (aliases : List (String × String)) (raw : List Char) : Option String :=
  let normalized := toLowerStr (trimCh raw)
  match List.find? (fun e => e.1.toList = normalized) aliases with
  | some e => if e.2 = "" then matchCityPartial aliases normalized else some e.2
  | none => matchCityPartial aliases normalized

/-- Splitting on `/\s+/` (the input is already trimmed at the call site). -/
def splitWsAux : List Char → List Char → List (List Char)
  | [], acc => if acc = [] then [] else [acc.reverse]
  | c :: rest, acc =>
    if jsWs c then
      if acc = [] then splitWsAux rest []
      else acc.reverse :: splitWsAux rest []
    else splitWsAux rest (c :: acc)

def splitWsCh (s : List Char) : List (List Char) := splitWsAux s []

/-- `String.prototype.padStart(2, "0")`. -/
def padStart2 (s : List Char) : List Char := if s.length < 2 then '0' :: s else s

/-- `parseDate` from `src/market/parser.ts`.  The source takes the year from
`new Date().getFullYear()`; the ambient current year is the `year` argument. -/
def parseDate (year : Nat) (raw : List Char) : Option String :=
  let parts := splitWsCh (trimCh raw)
  if parts.length < 2 then none
  else
    let monthStr := toLowerStr ((parts.get? 0).getD [])
    let day := ((parts.get? 1).getD []).filter jsDigit
    match List.find? (fun e => e.1.toList = monthStr) MONTHS with
    | none => none
    | some e =>
      if day = [] then none
      else some (toString year ++ "-" ++ e.2 ++ "-" ++ String.mk (padStart2 day))

/-- `interface MarketToken` from `src/types.ts`. -/
structure MarketToken where
  tokenId : String
  outcome : String
  price : ℚ
deriving DecidableEq

/-- `interface RawMarket` from `src/types.ts`. -/
structure RawMarket where
  conditionId : String
  questionId : String
  title : String
  slug : String
  outcomes : List String
  outcomePrices : List String
  tokens : List MarketToken
  volume : ℚ
  endDateIso : String
  active : Bool
  closed : Bool
deriving DecidableEq

/-- `interface ParsedMarket` from `src/types.ts`. -/
structure ParsedMarket where
  conditionId : String
  title : String
  city : String
  date : String
  metric : Metric
  bracketMin : XNum
  bracketMax : XNum
  bracketType : BracketType
  yesTokenId : String
  noTokenId : String
  yesPrice : ℚ
  noPrice : ℚ
  volume : ℚ
  endDateIso : String
deriving DecidableEq

/-- `buildParsed` from `src/market/parser.ts`. -/
def buildParsed (raw : RawMarket) (city : String) (date : String) (metric : Metric)
    (bracketType : BracketType) (bracketMin bracketMax : XNum) : ParsedMarket :=
  { conditionId := raw.conditionId, title := raw.title, city := city, date := date,
    metric := metric, bracketMin := bracketMin, bracketMax := bracketMax,
    bracketType := bracketType,
    yesTokenId := (((raw.tokens.get? 0).map MarketToken.tokenId).getD ""),
    noTokenId := (((raw.tokens.get? 1).map MarketToken.tokenId).getD ""),
    yesPrice := (((raw.tokens.get? 0).map MarketToken.price).getD 0),
    noPrice := (((raw.tokens.get? 1).map MarketToken.price).getD 0),
    volume := raw.volume, endDateIso := raw.endDateIso }

/-- `Number(...)` applied to a captured digit string. -/
def natOfDigits (s : List Char) : Nat :=
  s.foldl (fun a c => a * 10 + (c.toNat - Char.toNat '0')) 0

/-- `parseMarketTitle` from `src/market/parser.ts`.  `logUnparsed` only logs
and returns `null`, so every failure path is `none`. -/
def parseMarketTitle (aliases : List (String × String)) (year : Nat)
    (raw : RawMarket) : Option ParsedMarket :=
  let title := raw.title.toList
  match reFind parseFuel RE_BETWEEN title with
  | some m =>
    match matchCity aliases (capture m 1) with
    | none => none
    | some citySlug =>
      match parseDate year (capture m 4) with
      | none => none
      | some date =>
        some (buildParsed raw citySlug date .high .between
          (.fin (natOfDigits (capture m 2) : ℚ))
          (.fin ((natOfDigits (capture m 3) : ℚ) + 1)))
  | none =>
  match reFind parseFuel RE_OR_BELOW title with
  | some m =>
    match matchCity aliases (capture m 1) with
    | none => none
    | some citySlug =>
      match parseDate year (capture m 3) with
      | none => none
      | some date =>
        some (buildParsed raw citySlug date .high .below
          .negInf
          (.fin ((natOfDigits (capture m 2) : ℚ) + 1)))
  | none =>
  match reFind parseFuel RE_OR_HIGHER title with
  | some m =>
    match matchCity aliases (capture m 1) with
    | none => none
    | some citySlug =>
      match parseDate year (capture m 3) with
      | none => none
      | some date =>
        some (buildParsed raw citySlug date .high .above
          (.fin (natOfDigits (capture m 2) : ℚ))
          .posInf)
  | none => none

/-- C3: `parseMarketTitle` recognizes exactly the three case-insensitive title
patterns, tried in order: a "between X-Y" match yields bracketType `between`
with `bracketMin = X` and `bracketMax = Y + 1`; an "X or below" match yields
`below` with `bracketMin = −∞` and `bracketMax = X + 1`; an "X or higher"
match yields `above` with `bracketMin = X` and `bracketMax = +∞`; and whenever
no pattern matches, or the city cannot be resolved against the alias table, or
the "Month Day" date is unparsable, the (total, hence never-throwing) parser
returns `none`. -/
theorem parseMarketTitle_spec (aliases : List (String × String)) (year : Nat)
    (raw : RawMarket) :
    (∀ m, reFind parseFuel RE_BETWEEN raw.title.toList = some m →
      (∀ citySlug, matchCity aliases (capture m 1) = some citySlug →
        ∀ date, parseDate year (capture m 4) = some date →
        ∃ p, parseMarketTitle aliases year raw = some p
          ∧ p.bracketType = .between
          ∧ p.bracketMin = .fin (natOfDigits (capture m 2) : ℚ)
          ∧ p.bracketMax = .fin ((natOfDigits (capture m 3) : ℚ) + 1)
          ∧ p.city = citySlug ∧ p.date = date ∧ p.metric = .high)
      ∧ (matchCity aliases (capture m 1) = none →
          parseMarketTitle aliases year raw = none)
      ∧ (parseDate year (capture m 4) = none →
          parseMarketTitle aliases year raw = none))
    ∧ (reFind parseFuel RE_BETWEEN raw.title.toList = none →
      ∀ m, reFind parseFuel RE_OR_BELOW raw.title.toList = some m →
      (∀ citySlug, matchCity aliases (capture m 1) = some citySlug →
        ∀ date, parseDate year (capture m 3) = some date →
        ∃ p, parseMarketTitle aliases year raw = some p
          ∧ p.bracketType = .below
          ∧ p.bracketMin = .negInf
          ∧ p.bracketMax = .fin ((natOfDigits (capture m 2) : ℚ) + 1)
          ∧ p.city = citySlug ∧ p.date = date ∧ p.metric = .high)
      ∧ (matchCity aliases (capture m 1) = none →
          parseMarketTitle aliases year raw = none)
      ∧ (parseDate year (capture m 3) = none →
          parseMarketTitle aliases year raw = none))
    ∧ (reFind parseFuel RE_BETWEEN raw.title.toList = none →
      reFind parseFuel RE_OR_BELOW raw.title.toList = none →
      ∀ m, reFind parseFuel RE_OR_HIGHER raw.title.toList = some m →
      (∀ citySlug, matchCity aliases (capture m 1) = some citySlug →
        ∀ date, parseDate year (capture m 3) = some date →
        ∃ p, parseMarketTitle aliases year raw = some p
          ∧ p.bracketType = .above
          ∧ p.bracketMin = .fin (natOfDigits (capture m 2) : ℚ)
          ∧ p.bracketMax = .posInf
          ∧ p.city = citySlug ∧ p.date = date ∧ p.metric = .high)
      ∧ (matchCity aliases (capture m 1) = none →
          parseMarketTitle aliases year raw = none)
      ∧ (parseDate year (capture m 3) = none →
          parseMarketTitle aliases year raw = none))
    ∧ (reFind parseFuel RE_BETWEEN raw.title.toList = none →
      reFind parseFuel RE_OR_BELOW raw.title.toList = none →
      reFind parseFuel RE_OR_HIGHER raw.title.toList = none →
      parseMarketTitle aliases year raw = none) := by
  refine ⟨?_, ?_, ?_, ?_⟩
  · intro m hm
    refine ⟨?_, ?_, ?_⟩
    · intro citySlug hc date hd
      refine ⟨buildParsed raw citySlug date .high .between
        (.fin (natOfDigits (capture m 2) : ℚ))
        (.fin ((natOfDigits (capture m 3) : ℚ) + 1)), ?_, rfl, rfl, rfl, rfl, rfl, rfl⟩
      simp only [parseMarketTitle, hm, hc, hd]
    · intro hc
      simp only [parseMarketTitle, hm, hc]
    · intro hd
      cases hc : matchCity aliases (capture m 1) with
      | none => simp only [parseMarketTitle, hm, hc]
      | some citySlug => simp only [parseMarketTitle, hm, hc, hd]
  · intro hB m hm
    refine ⟨?_, ?_, ?_⟩
    · intro citySlug hc date hd
      refine ⟨buildParsed raw citySlug date .high .below .negInf
        (.fin ((natOfDigits (capture m 2) : ℚ) + 1)), ?_, rfl, rfl, rfl, rfl, rfl, rfl⟩
      simp only [parseMarketTitle, hB, hm, hc, hd]
    · intro hc
      simp only [parseMarketTitle, hB, hm, hc]
    · intro hd
      cases hc : matchCity aliases (capture m 1) with
      | none => simp only [parseMarketTitle, hB, hm, hc]
      | some citySlug => simp only [parseMarketTitle, hB, hm, hc, hd]
  · intro hB hL m hm
    refine ⟨?_, ?_, ?_⟩
    · intro citySlug hc date hd
      refine ⟨buildParsed raw citySlug date .high .above
        (.fin (natOfDigits (capture m 2) : ℚ)) .posInf, ?_, rfl, rfl, rfl, rfl, rfl, rfl⟩
      simp only [parseMarketTitle, hB, hL, hm, hc, hd]
    · intro hc
      simp only [parseMarketTitle, hB, hL, hm, hc]
    · intro hd
      cases hc : matchCity aliases (capture m 1) with
      | none => simp only [parseMarketTitle, hB, hL, hm, hc]
      | some citySlug => simp only [parseMarketTitle, hB, hL, hm, hc, hd]
  · intro hB hL hH
    simp only [parseMarketTitle, hB, hL, hH]

/-- The alias table of `src/config.ts` is not among the sources; this is the
concrete table used for the witnesses, covering the aliases the repository's
tests rely on. -/
def demoAliases : List (String × String) :=
  [("new york city", "nyc"), ("nyc", "nyc"), ("chicago", "chicago")]

/-- The raw market of the spec's worked example
(`parse("between 32-33°F") ⇒ bracketMin=32, bracketMax=34`). -/
def demoRaw : RawMarket :=
  { conditionId := "cond-123", questionId := "q-123",
    title := "Will the highest temperature in New York City be between 32-33°F on February 16?",
    slug := "test-slug", outcomes := ["Yes", "No"], outcomePrices := ["0.50", "0.50"],
    tokens := [{ tokenId := "yes-token", outcome := "Yes", price := 1/2 },
               { tokenId := "no-token", outcome := "No", price := 1/2 }],
    volume := 10000, endDateIso := "2026-02-18T00:00:00Z", active := true, closed := false }

/-- The capture list `RE_BETWEEN` produces on `demoRaw.title`. -/
def demoCaps : Caps :=
  [(4, "February 16".toList), (3, "33".toList), (2, "32".toList),
   (1, "New York City".toList)]

/-- Witness for C3: the spec's example title parses to a `between` bracket
with `bracketMin = 32` and `bracketMax = 34`. -/
theorem parseMarketTitle_spec_witness :
    ∃ p, parseMarketTitle demoAliases 2026 demoRaw = some p
      ∧ p.bracketType = .between ∧ p.bracketMin = .fin 32 ∧ p.bracketMax = .fin 34
      ∧ p.city = "nyc" ∧ p.date = "2026-02-16" := by
  obtain ⟨hfull, -, -⟩ :=
    (parseMarketTitle_spec demoAliases 2026 demoRaw).1 demoCaps (by decide)
  obtain ⟨p, hp, hbt, hmin, hmax, hcity, hdate, -⟩ :=
    hfull "nyc" (by decide) "2026-02-16" (by decide)
  have h32 : natOfDigits (capture demoCaps 2) = 32 := by decide
  have h33 : natOfDigits (capture demoCaps 3) = 33 := by decide
  refine ⟨p, hp, hbt, ?_, ?_, hcity, hdate⟩
  · rw [hmin, h32]
    norm_num
  · rw [hmax, h33]
    norm_num

/-- C10 (implicit): every descriptor `parseMarketTitle` produces has metric
`high` — all three recognized patterns require the phrase
"highest temperature", so a `low`-metric descriptor can never be emitted. -/
theorem parseMarketTitle_metric_always_high (aliases : List (String × String))
    (year : Nat) (raw : RawMarket) (p : ParsedMarket)
    (h : parseMarketTitle aliases year raw = some p) : p.metric = .high := by
  simp only [parseMarketTitle] at h
  repeat' first
    | exact Option.noConfusion h
    | (rw [← Option.some.inj h])
    | split at h
  all_goals rfl

/-- An "or below" raw market used by the C10 witness. -/
def demoRawBelow : RawMarket :=
  { demoRaw with
    title := "Will the highest temperature in New York City be 31°F or below on February 16?" }

/-- Witness for C10: the "or below" example title parses successfully and the
resulting descriptor has metric `high`. -/
theorem parseMarketTitle_metric_always_high_witness :
    ∃ p, parseMarketTitle demoAliases 2026 demoRawBelow = some p ∧ p.metric = .high :=
  ⟨_, rfl, parseMarketTitle_metric_always_high demoAliases 2026 demoRawBelow _ rfl⟩

/-!
### ConsensusEngine (`src/engine/consensus.ts`)

JS float literals become the corresponding decimal rationals:
`0.5 = 1/2`, `1.2 = 6/5`, `0.66 = 33/50`, `1.5 = 3/2`, `0.7 = 7/10`.
-/

/-- The `"LOCK" | "STRONG" | "SAFE" | "NEAR-SAFE" | "SKIP"` confidence tier. -/
inductive ConfidenceTier where
  | LOCK
  | STRONG
  | SAFE
  | NEAR_SAFE
  | SKIP
deriving DecidableEq

/-- `interface ConsensusResult` from `src/engine/consensus.ts`. -/
structure ConsensusResult where
  gfsProbability : ℚ
  ecmwfProbability : Option ℚ
  nwsHigh : Option ℚ
  consensusProbability : ℚ
  confidence : ConfidenceTier
  modelsAgreeing : ℕ
  kellyMultiplier : ℚ
deriving DecidableEq

/-- The NWS point-forecast check from `calculateConsensus` (lines 44-58):
`nwsInBracket` stays `null` unless an NWS high is supplied and the metric is
`high`. -/
def nwsInBracketOf (nwsHigh : Option ℚ) (metric : Metric) (bracketType : BracketType)
    (bracketMin bracketMax : XNum) : Option Bool :=
  match nwsHigh, metric with
  | some h, .high =>
    match bracketType with
    | .above => some (XNum.le bracketMin (.fin h))
    | .below => some (XNum.lt (.fin h) bracketMax)
    | .between => some (XNum.le bracketMin (.fin h) && XNum.lt (.fin h) bracketMax)
  | _, _ => none

/-- `calculateConsensus` from `src/engine/consensus.ts`. -/
def calculateConsensus (gfsEnsemble : EnsembleForecast)
    (ecmwfEnsemble : Option EnsembleForecast) (nwsHigh : Option ℚ) (date : String)
    (metric : Metric) (bracketType : BracketType) (bracketMin bracketMax : XNum) :
    Option ConsensusResult :=
  match getModelProbability gfsEnsemble date metric bracketType bracketMin bracketMax with
  | none => none
  | some gfsProb =>
    let ecmwfProb : Option ℚ :=
      match ecmwfEnsemble with
      | none => none
      | some e => getModelProbability e date metric bracketType bracketMin bracketMax
    let nwsInBracket : Option Bool :=
      nwsInBracketOf nwsHigh metric bracketType bracketMin bracketMax
    let gfsVote : Bool := (1/2 : ℚ) ≤ gfsProb
    let modelsAgreeing : ℕ := 1 +
      (match ecmwfProb with
       | some q => if (((1/2 : ℚ) ≤ q) : Bool) = gfsVote then 1 else 0
       | none => 0) +
      (match nwsInBracket with
       | some b => if b = gfsVote then 1 else 0
       | none => 0)
    let consensusProb : ℚ :=
      match ecmwfProb with
      | none => (gfsProb * 1) / 1
      | some q => (gfsProb * 1 + q * (6/5)) / (1 + 6/5)
    let totalModels : ℕ := 1 + (if ecmwfProb.isSome then 1 else 0)
      + (if nwsInBracket.isSome then 1 else 0)
    let agreeFraction : ℚ := (modelsAgreeing : ℚ) / (totalModels : ℚ)
    let tier : ConfidenceTier × ℚ :=
      if 2 ≤ totalModels ∧ agreeFraction = 1 then (.LOCK, 3/2)
      else if 2 ≤ totalModels ∧ (33/50 : ℚ) ≤ agreeFraction then (.STRONG, 6/5)
      else if totalModels = 1 then (.SAFE, 1)
      else if (1/2 : ℚ) ≤ agreeFraction then (.NEAR_SAFE, 7/10)
      else (.SKIP, 0)
    some { gfsProbability := gfsProb, ecmwfProbability := ecmwfProb, nwsHigh := nwsHigh,
           consensusProbability := consensusProb, confidence := tier.1,
           modelsAgreeing := modelsAgreeing, kellyMultiplier := tier.2 }

/-- The confidence cascade exactly as the specification words it: an ordered
rule table on (number of models consulted, agreement fraction).  Kept separate
from `calculateConsensus` so the code's inline conditionals can be compared
against it. -/
def specConsensusTier (totalModels : ℕ) (agreeFraction : ℚ) : ConfidenceTier × ℚ :=
  if 2 ≤ totalModels ∧ agreeFraction = 1 then (.LOCK, 3/2)
  else if 2 ≤ totalModels ∧ (33/50 : ℚ) ≤ agreeFraction then (.STRONG, 6/5)
  else if totalModels = 1 then (.SAFE, 1)
  else if (1/2 : ℚ) ≤ agreeFraction then (.NEAR_SAFE, 7/10)
  else (.SKIP, 0)

/-- C4: `calculateConsensus` returns `none` exactly when the primary (GFS)
probability is unavailable for the requested date; in every other case it
returns a result whose confidence tier and Kelly multiplier are given by the
spec's ordered rule cascade `specConsensusTier`, applied to the number of
models consulted and the agreement fraction `modelsAgreeing / totalModels`. -/
theorem calculateConsensus_spec (g : EnsembleForecast) (e : Option EnsembleForecast)
    (nws : Option ℚ) (date : String) (metric : Metric) (bt : BracketType)
    (lo hi : XNum) :
    (calculateConsensus g e nws date metric bt lo hi = none ↔
      getModelProbability g date metric bt lo hi = none)
    ∧ (∀ r, calculateConsensus g e nws date metric bt lo hi = some r →
        (r.confidence, r.kellyMultiplier)
          = specConsensusTier
              (1 + (if r.ecmwfProbability.isSome then 1 else 0)
                 + (if (nwsInBracketOf nws metric bt lo hi).isSome then 1 else 0))
              ((r.modelsAgreeing : ℚ)
                / ((1 + (if r.ecmwfProbability.isSome then 1 else 0)
                     + (if (nwsInBracketOf nws metric bt lo hi).isSome then 1 else 0) : ℕ) : ℚ))) := by
  cases hg : getModelProbability g date metric bt lo hi with
  | none =>
    refine ⟨by simp [calculateConsensus, hg], ?_⟩
    intro r hr
    simp [calculateConsensus, hg] at hr
  | some p =>
    refine ⟨by simp [calculateConsensus, hg], ?_⟩
    intro r hr
    simp only [calculateConsensus, hg] at hr
    cases Option.some.inj hr
    rfl

/-- C5: in `calculateConsensus` the blended probability is the weighted
average of the primary probability (weight 1.0) and, when present, the
secondary probability (weight 1.2), normalized by the sum of the weights
actually used — the primary probability alone when no secondary is available
— and the NWS tiebreaker never enters the blend; the agreement count is 1 for
the primary plus 1 if the secondary's directional vote (`probability >= 0.5`)
matches the primary's vote plus 1 if the tiebreaker is supplied and matches
the primary's vote. -/
theorem calculateConsensus_blend_agreement (g : EnsembleForecast)
    (e : Option EnsembleForecast) (nws : Option ℚ) (date : String) (metric : Metric)
    (bt : BracketType) (lo hi : XNum) :
    ∀ r, calculateConsensus g e nws date metric bt lo hi = some r →
      (r.consensusProbability =
        (match r.ecmwfProbability with
         | none => r.gfsProbability
         | some q => (r.gfsProbability * 1 + q * (6/5)) / (1 + 6/5)))
      ∧ r.modelsAgreeing = 1
          + (match r.ecmwfProbability with
             | some q => if (((1/2 : ℚ) ≤ q) : Bool) = (((1/2 : ℚ) ≤ r.gfsProbability) : Bool)
                         then 1 else 0
             | none => 0)
          + (match nwsInBracketOf nws metric bt lo hi with
             | some b => if b = (((1/2 : ℚ) ≤ r.gfsProbability) : Bool) then 1 else 0
             | none => 0) := by
  intro r hr
  cases hg : getModelProbability g date metric bt lo hi with
  | none => simp [calculateConsensus, hg] at hr
  | some p =>
    simp only [calculateConsensus, hg] at hr
    cases Option.some.inj hr
    clear hr
    refine ⟨?_, rfl⟩
    dsimp only
    cases (match e with
      | none => (none : Option ℚ)
      | some e2 => getModelProbability e2 date metric bt lo hi) with
    | none => simp
    | some q => rfl

/-- GFS demo ensemble: the spec's 31-member ensemble for 2026-02-16. -/
def demoGfs : EnsembleForecast :=
  { city := "nyc", fetchedAt := 0, daily := [specDaily] }

/-- ECMWF demo ensemble: a single member at 43°F for the same date. -/
def demoEcmwf : EnsembleForecast :=
  { city := "nyc", fetchedAt := 0,
    daily := [{ date := "2026-02-16", highs := [43], lows := [] }] }

/-- The consensus result on the demo ensembles for bracket `[42, 44)`:
GFS probability 20/31, ECMWF probability 1, both voting YES, so LOCK. -/
def demoConsensusVal : ConsensusResult :=
  { gfsProbability := ((20 : ℕ) : ℚ) / ((31 : ℕ) : ℚ),
    ecmwfProbability := some (((1 : ℕ) : ℚ) / ((1 : ℕ) : ℚ)),
    nwsHigh := none,
    consensusProbability :=
      (((20 : ℕ) : ℚ) / ((31 : ℕ) : ℚ) * 1 + ((1 : ℕ) : ℚ) / ((1 : ℕ) : ℚ) * (6/5))
        / (1 + 6/5),
    confidence := .LOCK, modelsAgreeing := 2, kellyMultiplier := 3/2 }

theorem demoConsensusEval :
    calculateConsensus demoGfs (some demoEcmwf) none "2026-02-16" .high .between
      (.fin 42) (.fin 44) = some demoConsensusVal := by
  have hg : getModelProbability demoGfs "2026-02-16" .high .between (.fin 42) (.fin 44)
      = some (((20 : ℕ) : ℚ) / ((31 : ℕ) : ℚ)) := rfl
  have he : getModelProbability demoEcmwf "2026-02-16" .high .between (.fin 42) (.fin 44)
      = some (((1 : ℕ) : ℚ) / ((1 : ℕ) : ℚ)) := rfl
  have hp : ((1/2 : ℚ) ≤ ((20 : ℕ) : ℚ) / ((31 : ℕ) : ℚ)) := by norm_num
  have hq : ((1/2 : ℚ) ≤ ((1 : ℕ) : ℚ) / ((1 : ℕ) : ℚ)) := by norm_num
  have hone : ((2 : ℕ) : ℚ) / ((2 : ℕ) : ℚ) = 1 := by norm_num
  simp only [calculateConsensus, hg, he, nwsInBracketOf, demoConsensusVal]
  norm_num [hp, hq, hone]

/-- Witness for C4: on the demo ensembles the consensus exists (the primary
probability is available), the cascade instance holds, and the tier is LOCK
with multiplier 1.5, matching the spec's "two models with matching votes"
scenario. -/
theorem calculateConsensus_spec_witness :
    ∃ r, calculateConsensus demoGfs (some demoEcmwf) none "2026-02-16" .high .between
        (.fin 42) (.fin 44) = some r
      ∧ (r.confidence, r.kellyMultiplier)
          = specConsensusTier
              (1 + (if r.ecmwfProbability.isSome then 1 else 0)
                 + (if (nwsInBracketOf none .high .between (.fin 42) (.fin 44)).isSome
                    then 1 else 0))
              ((r.modelsAgreeing : ℚ)
                / ((1 + (if r.ecmwfProbability.isSome then 1 else 0)
                     + (if (nwsInBracketOf none .high .between (.fin 42) (.fin 44)).isSome
                        then 1 else 0) : ℕ) : ℚ))
      ∧ r.confidence = .LOCK ∧ r.kellyMultiplier = 3/2 :=
  ⟨demoConsensusVal, demoConsensusEval,
    (calculateConsensus_spec demoGfs (some demoEcmwf) none "2026-02-16" .high .between
      (.fin 42) (.fin 44)).2 demoConsensusVal demoConsensusEval, rfl, rfl⟩

/-- Witness for C5: on the demo ensembles the blended probability is
`(20/31 · 1.0 + 1 · 1.2) / 2.2 = 26/31` and the agreement count is 2. -/
theorem calculateConsensus_blend_agreement_witness :
    ∃ r, calculateConsensus demoGfs (some demoEcmwf) none "2026-02-16" .high .between
        (.fin 42) (.fin 44) = some r
      ∧ r.consensusProbability = 26/31 ∧ r.modelsAgreeing = 2 := by
  obtain ⟨h1, h2⟩ := calculateConsensus_blend_agreement demoGfs (some demoEcmwf) none
    "2026-02-16" .high .between (.fin 42) (.fin 44) demoConsensusVal demoConsensusEval
  refine ⟨demoConsensusVal, demoConsensusEval, ?_, ?_⟩
  · rw [h1]
    norm_num [demoConsensusVal]
  · rw [h2]
    norm_num [demoConsensusVal, nwsInBracketOf]

/-!
### EdgeCalculator (`src/engine/edge.ts`) and PositionSizer (`src/engine/sizing.ts`)
-/

/-- The `"YES" | "NO"` side. -/
inductive Side where
  | YES
  | NO
deriving DecidableEq

/-- `interface EdgeResult` from `src/engine/edge.ts`. -/
structure EdgeResult where
  market : ParsedMarket
  modelProbability : ℚ
  marketPrice : ℚ
  edge : ℚ
  side : Side
  effectivePrice : ℚ
deriving DecidableEq

/-- `calculateEdge` from `src/engine/edge.ts`. -/
def calculateEdge (market : ParsedMarket) (ensemble : EnsembleForecast) :
    Option EdgeResult :=
  match getModelProbability ensemble market.date market.metric market.bracketType
      market.bracketMin market.bracketMax with
  | none => none
  | some modelProb =>
    let yesPrice := market.yesPrice
    let noPrice := market.noPrice
    let yesEdge := modelProb - yesPrice
    let noEdge := (1 - modelProb) - noPrice
    if yesEdge ≥ noEdge ∧ yesEdge > 0 then
      some { market := market, modelProbability := modelProb, marketPrice := yesPrice,
             edge := yesEdge, side := .YES, effectivePrice := yesPrice }
    else if noEdge > 0 then
      some { market := market, modelProbability := 1 - modelProb, marketPrice := noPrice,
             edge := noEdge, side := .NO, effectivePrice := noPrice }
    else none

/-- The `"paper" | "live"` mode. -/
inductive TradeMode where
  | paper
  | live
deriving DecidableEq

/-- `interface AppConfig` from `src/types.ts`. -/
structure AppConfig where
  mode : TradeMode
  bankrollUsdc : ℚ
  maxPositionPct : ℚ
  minEdgePct : ℚ
  kellyFraction : ℚ
  maxOpenPositions : ℕ
  polygonPrivateKey : Option String := none
  polymarketApiKey : Option String := none
  polymarketApiSecret : Option String := none
  polymarketApiPassphrase : Option String := none
deriving DecidableEq

/-- The record `kellySize` returns. -/
structure SizingResult where
  rawKelly : ℚ
  adjustedKelly : ℚ
  size : ℚ
deriving DecidableEq

/-- `kellySize` from `src/engine/sizing.ts`.  `Math.floor` on a rational is
`Int.floor`; exact-arithmetic model, so `1/0 = 0` (JS would produce
`Infinity`/`NaN` at `effectivePrice = 0`, a path the claims do not touch). -/
def kellySize (modelProbability effectivePrice bankroll : ℚ) (config : AppConfig) :
    SizingResult :=
  let p := modelProbability
  let q := 1 - p
  let b := (1 - effectivePrice) / effectivePrice
  if b ≤ 0 then { rawKelly := 0, adjustedKelly := 0, size := 0 }
  else
    let rawKelly := (b * p - q) / b
    if rawKelly ≤ 0 then { rawKelly := rawKelly, adjustedKelly := 0, size := 0 }
    else
      let adjustedKelly := rawKelly * config.kellyFraction
      let cappedKelly := min adjustedKelly config.maxPositionPct
      let size := ((⌊cappedKelly * bankroll * 100⌋ : ℚ)) / 100
      { rawKelly := rawKelly, adjustedKelly := cappedKelly, size := max size 0 }

/-- C6: with `yesEdge = p − yesPrice` and `noEdge = (1 − p) − noPrice`,
`calculateEdge` returns the YES side (carrying probability `p`, price
`yesPrice`, edge `yesEdge`) exactly when `yesEdge >= noEdge` and
`yesEdge > 0` — so an exact tie `yesEdge = noEdge > 0` deterministically
yields YES — otherwise the NO side (carrying `1 − p`, `noPrice`, `noEdge`)
exactly when `noEdge > 0`, and otherwise `none`. -/
theorem calculateEdge_spec (market : ParsedMarket) (ensemble : EnsembleForecast) (p : ℚ)
    (hp : getModelProbability ensemble market.date market.metric market.bracketType
      market.bracketMin market.bracketMax = some p) :
    (p - market.yesPrice ≥ (1 - p) - market.noPrice ∧ p - market.yesPrice > 0 →
      calculateEdge market ensemble = some
        { market := market, modelProbability := p, marketPrice := market.yesPrice,
          edge := p - market.yesPrice, side := .YES, effectivePrice := market.yesPrice })
    ∧ (¬(p - market.yesPrice ≥ (1 - p) - market.noPrice ∧ p - market.yesPrice > 0) →
       (1 - p) - market.noPrice > 0 →
      calculateEdge market ensemble = some
        { market := market, modelProbability := 1 - p, marketPrice := market.noPrice,
          edge := (1 - p) - market.noPrice, side := .NO, effectivePrice := market.noPrice })
    ∧ (¬(p - market.yesPrice ≥ (1 - p) - market.noPrice ∧ p - market.yesPrice > 0) →
       ¬((1 - p) - market.noPrice > 0) →
      calculateEdge market ensemble = none) := by
  refine ⟨?_, ?_, ?_⟩
  · intro hyes
    simp only [calculateEdge, hp, if_pos hyes]
  · intro hno hpos
    simp only [calculateEdge, hp, if_neg hno, if_pos hpos]
  · intro hno hnpos
    simp only [calculateEdge, hp, if_neg hno, if_neg hnpos]

/-- The spec's second edge scenario: the demo "between 32-33" market priced at
yesPrice 0.90 / noPrice 0.10 against the 31-member ensemble. -/
def demoEdgeMarket : ParsedMarket :=
  { conditionId := "cond-123",
    title := "Will the highest temperature in New York City be between 32-33°F on February 16?",
    city := "nyc", date := "2026-02-16", metric := .high,
    bracketMin := .fin 42, bracketMax := .fin 44, bracketType := .between,
    yesTokenId := "yes-token", noTokenId := "no-token",
    yesPrice := 9/10, noPrice := 1/10, volume := 10000,
    endDateIso := "2026-02-18T00:00:00Z" }

/-- Witness for C6: on the spec's scenario (p = 20/31 ≈ 0.645, yesPrice 0.90,
noPrice 0.10) the chosen side is NO with edge `(1 − 20/31) − 0.10 = 79/310`. -/
theorem calculateEdge_spec_witness :
    calculateEdge demoEdgeMarket demoGfs = some
      { market := demoEdgeMarket,
        modelProbability := 1 - ((20 : ℕ) : ℚ) / ((31 : ℕ) : ℚ),
        marketPrice := demoEdgeMarket.noPrice,
        edge := (1 - ((20 : ℕ) : ℚ) / ((31 : ℕ) : ℚ)) - demoEdgeMarket.noPrice,
        side := .NO, effectivePrice := demoEdgeMarket.noPrice }
    ∧ (1 - ((20 : ℕ) : ℚ) / ((31 : ℕ) : ℚ)) - demoEdgeMarket.noPrice = 79/310 := by
  have hp : getModelProbability demoGfs demoEdgeMarket.date demoEdgeMarket.metric
      demoEdgeMarket.bracketType demoEdgeMarket.bracketMin demoEdgeMarket.bracketMax
      = some (((20 : ℕ) : ℚ) / ((31 : ℕ) : ℚ)) := rfl
  refine ⟨(calculateEdge_spec demoEdgeMarket demoGfs _ hp).2.1 ?_ ?_, ?_⟩
  · norm_num [demoEdgeMarket]
  · norm_num [demoEdgeMarket]
  · norm_num [demoEdgeMarket]

/-- C7: `kellySize` returns size 0 whenever the net odds
`b = (1 − price)/price` are nonpositive or the raw Kelly fraction
`(b·p − (1 − p))/b` is nonpositive, and otherwise returns
`max 0 (⌊min(rawKelly · kellyFraction, maxPositionPct) · bankroll · 100⌋ / 100)`;
in particular `price = 1` gives size 0 for every probability and `bankroll = 0`
gives size 0 for every probability and price. -/
theorem kellySize_spec (p price bankroll : ℚ) (config : AppConfig) :
    ((1 - price) / price ≤ 0 → (kellySize p price bankroll config).size = 0)
    ∧ (0 < (1 - price) / price →
       ((1 - price) / price * p - (1 - p)) / ((1 - price) / price) ≤ 0 →
       (kellySize p price bankroll config).size = 0)
    ∧ (0 < (1 - price) / price →
       0 < ((1 - price) / price * p - (1 - p)) / ((1 - price) / price) →
       (kellySize p price bankroll config).size
         = max 0 ((⌊min (((1 - price) / price * p - (1 - p)) / ((1 - price) / price)
                      * config.kellyFraction) config.maxPositionPct * bankroll * 100⌋ : ℚ)
                  / 100))
    ∧ (price = 1 → (kellySize p price bankroll config).size = 0)
    ∧ (bankroll = 0 → (kellySize p price bankroll config).size = 0) := by
  refine ⟨?_, ?_, ?_, ?_, ?_⟩
  · intro hb
    simp only [kellySize, if_pos hb]
  · intro hb hk
    simp only [kellySize, if_neg (not_le.mpr hb), if_pos hk]
  · intro hb hk
    simp only [kellySize, if_neg (not_le.mpr hb), if_neg (not_le.mpr hk)]
    exact max_comm _ _
  · intro hprice
    subst hprice
    simp [kellySize]
  · intro hbank
    subst hbank
    by_cases hb : (1 - price) / price ≤ 0
    · simp only [kellySize, if_pos hb]
    · by_cases hk : ((1 - price) / price * p - (1 - p)) / ((1 - price) / price) ≤ 0
      · simp only [kellySize, if_neg hb, if_pos hk]
      · simp only [kellySize, if_neg hb, if_neg hk]
        norm_num

/-- The default configuration of the repository's sizing tests:
bankroll 100, maxPositionPct 0.05, minEdgePct 8, kellyFraction 0.25. -/
def demoConfig : AppConfig :=
  { mode := .paper, bankrollUsdc := 100, maxPositionPct := 1/20, minEdgePct := 8,
    kellyFraction := 1/4, maxOpenPositions := 10 }

/-- Witness for C7: the spec's scenario
`kellySize(p=0.6, price=0.10, bankroll=100, kellyFraction=0.25,
maxPositionPct=0.05)` gives `b = 9`, `rawKelly = 5/9`,
`adjusted = min(5/36, 1/20) = 1/20`, size `$5.00`; and the boundary cases
`price = 1` and `bankroll = 0` give size 0. -/
theorem kellySize_spec_witness :
    (kellySize (3/5) (1/10) 100 demoConfig).size = 5
    ∧ (kellySize (3/5) 1 100 demoConfig).size = 0
    ∧ (kellySize (3/5) (1/10) 0 demoConfig).size = 0 := by
  refine ⟨?_, ?_, ?_⟩
  · have h := (kellySize_spec (3/5) (1/10) 100 demoConfig).2.2.1
      (by norm_num) (by norm_num)
    rw [h]
    norm_num [demoConfig]
  · exact (kellySize_spec (3/5) 1 100 demoConfig).2.2.2.1 rfl
  · exact (kellySize_spec (3/5) (1/10) 0 demoConfig).2.2.2.2 rfl

/-!
### SignalGenerator (`src/engine/signals.ts`)

`Date.now()` (sampled once per invocation) is the explicit `now` argument;
`new Date(s).getTime()` is the explicit `parseTime` argument;
`crypto.randomUUID()` is an explicit id stream `uuid : ℕ → String` consumed in
signal-creation order.  The `Map`s of ensembles are insertion-ordered
association lists, the open-position `Set` a list of condition ids.
-/

/-- `PositionStatus` from `src/types.ts`. -/
inductive PositionStatus where
  | «open»
  | won
  | lost
  | expired
deriving DecidableEq

/-- `interface Position` from `src/types.ts` (fields the generator reads). -/
structure Position where
  id : String
  signalId : String
  conditionId : String
  city : String
  date : String
  metric : Metric
  bracketMin : XNum
  bracketMax : XNum
  bracketType : BracketType
  side : Side
  entryPrice : ℚ
  size : ℚ
  potentialPayout : ℚ
  modelProbability : ℚ
  edge : ℚ
  status : PositionStatus
  entryTime : ℤ
deriving DecidableEq

/-- `interface Signal` from `src/types.ts`. -/
structure Signal where
  id : String
  market : ParsedMarket
  modelProbability : ℚ
  marketPrice : ℚ
  edge : ℚ
  side : Side
  size : ℚ
  kelly : ℚ
  confidence : ConfidenceTier
  createdAt : ℤ
deriving DecidableEq

/-- `MIN_VOLUME` from `src/engine/signals.ts`. -/
def MIN_VOLUME : ℚ := 1000

/-- `MIN_HOURS_TO_SETTLE` from `src/engine/signals.ts`. -/
def MIN_HOURS_TO_SETTLE : ℤ := 2

/-- `getConfidence` from `src/engine/signals.ts`:
`0.25 = 1/4`, `0.15 = 3/20`, `0.10 = 1/10`. -/
def getConfidence (edge : ℚ) (consensusConfidence : Option ConfidenceTier) :
    ConfidenceTier :=
  if consensusConfidence = some .LOCK ∨ (1/4 : ℚ) ≤ edge then .LOCK
  else if consensusConfidence = some .STRONG ∨ (3/20 : ℚ) ≤ edge then .STRONG
  else if (1/10 : ℚ) ≤ edge then .SAFE
  else .NEAR_SAFE

/-- `ecmwfEnsembles?.get(market.city) ?? null`. -/
def lookupEnsemble (m : Option (List (String × EnsembleForecast))) (city : String) :
    Option EnsembleForecast :=
  match m with
  | none => none
  | some l => (List.find? (fun e => e.1 = city) l).map Prod.snd

/-- The per-market body of the `generateSignals` loop (every `continue` of the
source is `none`); the produced signal carries the placeholder id `""`, which
`generateSignals` replaces by the next value of the id stream. -/
def signalForMarket (gfsEnsembles : List (String × EnsembleForecast))
    (config : AppConfig) (openConditionIds : List String)
    (ecmwfEnsembles : Option (List (String × EnsembleForecast)))
    (parseTime : String → ℤ) (now : ℤ) (market : ParsedMarket) : Option Signal :=
  let minEdge := config.minEdgePct / 100
  let bankroll := config.bankrollUsdc
  if market.conditionId ∈ openConditionIds then none
  else if market.volume < MIN_VOLUME then none
  else if parseTime market.endDateIso - now < MIN_HOURS_TO_SETTLE * 60 * 60 * 1000 then none
  else if 7 * 24 * 60 * 60 * 1000 < parseTime market.date - now then none
  else
    match (List.find? (fun e => e.1 = market.city) gfsEnsembles).map Prod.snd with
    | none => none
    | some gfsEnsemble =>
      let ecmwfEnsemble := lookupEnsemble ecmwfEnsembles market.city
      match calculateConsensus gfsEnsemble ecmwfEnsemble none market.date market.metric
          market.bracketType market.bracketMin market.bracketMax with
      | none => none
      | some consensus =>
        if consensus.confidence = .SKIP then none
        else
          let consensusProb := consensus.consensusProbability
          let yesEdge := consensusProb - market.yesPrice
          let noEdge := (1 - consensusProb) - market.noPrice
          match (if yesEdge ≥ noEdge ∧ yesEdge > 0 then
                   some (Side.YES, yesEdge, consensusProb, market.yesPrice)
                 else if noEdge > 0 then
                   some (Side.NO, noEdge, 1 - consensusProb, market.noPrice)
                 else none) with
          | none => none
          | some (side, edge, modelProbability, effectivePrice) =>
            if edge < minEdge then none
            else
              let sizing := kellySize modelProbability effectivePrice bankroll config
              let adjustedSize :=
                (⌊min (sizing.size * consensus.kellyMultiplier)
                    (bankroll * config.maxPositionPct) * 100⌋ : ℚ) / 100
              if adjustedSize < 1/2 then none
              else some
                { id := "", market := market, modelProbability := modelProbability,
                  marketPrice := effectivePrice, edge := edge, side := side,
                  size := adjustedSize, kelly := sizing.rawKelly,
                  confidence := getConfidence edge (some consensus.confidence),
                  createdAt := now }

/-- Replace the placeholder ids by successive values of the id stream, in
signal-creation order (mirrors the successive `crypto.randomUUID()` calls). -/
def withIds (uuid : ℕ → String) : ℕ → List Signal → List Signal
  | _, [] => []
  | i, s :: rest => { s with id := uuid i } :: withIds uuid (i + 1) rest

/-- `generateSignals` from `src/engine/signals.ts`. -/
def generateSignals (markets : List ParsedMarket)
    (gfsEnsembles : List (String × EnsembleForecast)) (config : AppConfig)
    (openPositions : List Position)
    (ecmwfEnsembles : Option (List (String × EnsembleForecast)))
    (parseTime : String → ℤ) (now : ℤ) (uuid : ℕ → String) : List Signal :=
  let openConditionIds :=
    (openPositions.filter (fun p => p.status = .«open»)).map Position.conditionId
  withIds uuid 0 (markets.filterMap
    (signalForMarket gfsEnsembles config openConditionIds ecmwfEnsembles parseTime now))

/-- C8: every signal that `generateSignals`' per-market body emits has its
size obtained by computing the base size via `kellySize` from the blended
consensus probability (the chosen side's probability and price), multiplying
by the consensus tier's Kelly multiplier, capping at
`maxPositionPct · bankroll`, and rounding down to whole cents; the survived
edge is at least the configured minimum, and the final size is at least $0.50
(a below-$0.50 size is dropped, so it can never be emitted). -/
theorem generateSignals_sizing (gfs : List (String × EnsembleForecast))
    (config : AppConfig) (openIds : List String)
    (ecmwf : Option (List (String × EnsembleForecast)))
    (parseTime : String → ℤ) (now : ℤ) (market : ParsedMarket) :
    ∀ sig, signalForMarket gfs config openIds ecmwf parseTime now market = some sig →
      ∃ gfsEnsemble consensus,
        (List.find? (fun e => e.1 = market.city) gfs).map Prod.snd = some gfsEnsemble
        ∧ calculateConsensus gfsEnsemble (lookupEnsemble ecmwf market.city) none
            market.date market.metric market.bracketType market.bracketMin market.bracketMax
            = some consensus
        ∧ consensus.confidence ≠ .SKIP
        ∧ ((sig.side = .YES ∧ sig.modelProbability = consensus.consensusProbability
              ∧ sig.marketPrice = market.yesPrice)
           ∨ (sig.side = .NO ∧ sig.modelProbability = 1 - consensus.consensusProbability
              ∧ sig.marketPrice = market.noPrice))
        ∧ config.minEdgePct / 100 ≤ sig.edge
        ∧ sig.size =
            (⌊min ((kellySize sig.modelProbability sig.marketPrice config.bankrollUsdc
                  config).size * consensus.kellyMultiplier)
                (config.bankrollUsdc * config.maxPositionPct) * 100⌋ : ℚ) / 100
        ∧ (1/2 : ℚ) ≤ sig.size := by
  intro sig h
  simp only [signalForMarket] at h
  split at h
  · exact Option.noConfusion h
  split at h
  · exact Option.noConfusion h
  split at h
  · exact Option.noConfusion h
  split at h
  · exact Option.noConfusion h
  split at h
  · exact Option.noConfusion h
  rename_i gfsE heqG
  split at h
  · exact Option.noConfusion h
  rename_i consensus heqC
  split at h
  · exact Option.noConfusion h
  rename_i hskip
  split at h
  · exact Option.noConfusion h
  rename_i side edge mp ep heqS
  split at h
  · exact Option.noConfusion h
  rename_i hedge
  split at h
  · exact Option.noConfusion h
  rename_i hsize
  cases Option.some.inj h
  clear h
  split at heqS
  · rename_i hyes
    simp only [Option.some.injEq, Prod.mk.injEq] at heqS
    obtain ⟨rfl, rfl, rfl, rfl⟩ := heqS
    exact ⟨gfsE, consensus, heqG, heqC, hskip, Or.inl ⟨rfl, rfl, rfl⟩,
      not_lt.mp hedge, rfl, not_lt.mp hsize⟩
  · rename_i hyes hno
    split at heqS
    · simp only [Option.some.injEq, Prod.mk.injEq] at heqS
      obtain ⟨rfl, rfl, rfl, rfl⟩ := heqS
      exact ⟨gfsE, consensus, heqG, heqC, hskip, Or.inr ⟨rfl, rfl, rfl⟩,
        not_lt.mp hedge, rfl, not_lt.mp hsize⟩
    · exact Option.noConfusion heqS

/-- The consensus on the demo GFS ensemble alone (no ECMWF, no NWS):
one model consulted, tier SAFE, multiplier 1. -/
def demoConsSafe : ConsensusResult :=
  { gfsProbability := ((20 : ℕ) : ℚ) / ((31 : ℕ) : ℚ), ecmwfProbability := none,
    nwsHigh := none,
    consensusProbability := (((20 : ℕ) : ℚ) / ((31 : ℕ) : ℚ) * 1) / 1,
    confidence := .SAFE, modelsAgreeing := 1, kellyMultiplier := 1 }

theorem demoConsSafeEval :
    calculateConsensus demoGfs none none "2026-02-16" .high .between (.fin 42) (.fin 44)
      = some demoConsSafe := by
  have hg : getModelProbability demoGfs "2026-02-16" .high .between (.fin 42) (.fin 44)
      = some (((20 : ℕ) : ℚ) / ((31 : ℕ) : ℚ)) := rfl
  simp only [calculateConsensus, hg, nwsInBracketOf, demoConsSafe]
  norm_num

/-- The ambient `new Date(s).getTime()` used by the demo scenario: the demo
market settles 8000 seconds after `now = 0` and its settlement date parses to
the epoch. -/
def demoParseTime : String → ℤ :=
  fun s => if s = "2026-02-18T00:00:00Z" then 8000000 else 0

/-- The signal the generator emits for `demoEdgeMarket` (modulo id):
NO side at price 0.10, edge 79/310, raw Kelly 79/279, size $5.00. -/
def demoSignal : Signal :=
  { id := "", market := demoEdgeMarket, modelProbability := 11/31,
    marketPrice := 1/10, edge := 79/310, side := .NO, size := 5,
    kelly := 79/279, confidence := .LOCK, createdAt := 0 }

theorem demoSignalEval :
    signalForMarket [("nyc", demoGfs)] demoConfig [] none demoParseTime 0 demoEdgeMarket
      = some demoSignal := by
  have hkel : kellySize (11/31 : ℚ) (1/10) 100 demoConfig
      = { rawKelly := 79/279, adjustedKelly := 1/20, size := 5 } := by
    norm_num [kellySize, demoConfig]
  have hb : demoConfig.bankrollUsdc = 100 := rfl
  have hm : demoConfig.minEdgePct = 8 := rfl
  have hx : demoConfig.maxPositionPct = 1/20 := rfl
  have hdates : ("2026-02-16" = "2026-02-18T00:00:00Z") = False := by
    simp
  norm_num [signalForMarket, demoEdgeMarket, demoParseTime, MIN_VOLUME,
    MIN_HOURS_TO_SETTLE, lookupEnsemble, demoConsSafeEval, demoConsSafe, hkel,
    hb, hm, hx, hdates, getConfidence, demoSignal, List.find?]
  intro hcontra
  exact absurd hcontra (by decide)

/-- Witness for C8: on the demo inputs the body emits a concrete signal of
size $5.00 ≥ $0.50, and the sizing characterization applies to it. -/
theorem generateSignals_sizing_witness :
    signalForMarket [("nyc", demoGfs)] demoConfig [] none demoParseTime 0 demoEdgeMarket
      = some demoSignal
    ∧ demoSignal.size = 5 ∧ (1/2 : ℚ) ≤ demoSignal.size := by
  refine ⟨demoSignalEval, by norm_num [demoSignal], ?_⟩
  obtain ⟨-, -, -, -, -, -, -, -, hhalf⟩ :=
    generateSignals_sizing [("nyc", demoGfs)] demoConfig [] none demoParseTime 0
      demoEdgeMarket demoSignal demoSignalEval
  exact hhalf

/-- Erase the randomly generated id of a signal. -/
def eraseId (s : Signal) : Signal := { s with id := "" }

theorem withIds_map_eraseId (uuid : ℕ → String) (i : ℕ) (l : List Signal) :
    (withIds uuid i l).map eraseId = l.map eraseId := by
  induction l generalizing i with
  | nil => rfl
  | cons s rest ih => simp [withIds, eraseId, ih]

/-- C9 counterexample: `generateSignals` reads `crypto.randomUUID()` (modelled
as the id stream), so two invocations on identical markets, forecasts,
positions and configuration — differing only in the ambient id source — give
different Signal lists.  The claim "identical inputs always produce identical
output, including identical Signal lists" fails as stated. -/
theorem generateSignals_not_deterministic_counterexample :
    generateSignals [demoEdgeMarket] [("nyc", demoGfs)] demoConfig [] none
        demoParseTime 0 (fun _ => "a")
      ≠ generateSignals [demoEdgeMarket] [("nyc", demoGfs)] demoConfig [] none
        demoParseTime 0 (fun _ => "b") := by
  have ha : generateSignals [demoEdgeMarket] [("nyc", demoGfs)] demoConfig [] none
      demoParseTime 0 (fun _ => "a") = [{ demoSignal with id := "a" }] := by
    simp [generateSignals, withIds, List.filterMap, demoSignalEval]
  have hb : generateSignals [demoEdgeMarket] [("nyc", demoGfs)] demoConfig [] none
      demoParseTime 0 (fun _ => "b") = [{ demoSignal with id := "b" }] := by
    simp [generateSignals, withIds, List.filterMap, demoSignalEval]
  intro heq
  rw [ha, hb] at heq
  simp [Signal.mk.injEq] at heq

/-- C9 amended: once the ambient clock (`now`, `parseTime`) is fixed alongside
the listed inputs, `generateSignals` is deterministic up to the randomly
generated signal ids: erasing the id field yields identical Signal lists for
any two id streams. -/
theorem generateSignals_deterministic_up_to_ids (markets : List ParsedMarket)
    (gfs : List (String × EnsembleForecast)) (config : AppConfig)
    (openPositions : List Position)
    (ecmwf : Option (List (String × EnsembleForecast)))
    (parseTime : String → ℤ) (now : ℤ) (uuidA uuidB : ℕ → String) :
    (generateSignals markets gfs config openPositions ecmwf parseTime now uuidA).map eraseId
    = (generateSignals markets gfs config openPositions ecmwf parseTime now uuidB).map
        eraseId := by
  unfold generateSignals
  rw [withIds_map_eraseId, withIds_map_eraseId]

end WClaw
